import Mathlib

/-!
Verification development for `cloud_monitor/core/base.py` of the
cloud-monitoring-project repository.

The module defines three plain classes — `MetricData` (a metric sample),
`CloudResource` (abstract resource with an unimplemented collection hook) and
`Alert` — with constructors and `to_dict` serialization.  We embed them
shallowly: Python `float` values are modelled as rationals (no NaN arises in
the code paths verified here), Python `datetime` as a record of calendar
fields, dictionaries as association lists of string keys to a `PyVal` sum,
exceptions as `Except PyErr`, and `datetime.now()` as an explicitly injected
clock argument.  Methods that in Python receive a mutable `self` are embedded
in state-passing style, returning the (possibly updated) object together with
the result.
-/

/-- Values that appear in the dictionaries produced by the module:
strings, numbers and booleans. -/
inductive PyVal where
  | str (s : String)
  | num (q : ℚ)
  | bool (b : Bool)
  deriving DecidableEq, Repr

/-- The exceptions raised (or described) by the module and its spec. -/
inductive PyErr where
  | notImplementedError (msg : String)
  | validationError (msg : String)
  deriving DecidableEq, Repr

/-- Model of a naive Python `datetime.datetime`: calendar fields down to
microseconds, no timezone (the code only ever uses `datetime.now()`). -/
structure DateTime where
  year : Nat
  month : Nat
  day : Nat
  hour : Nat
  minute : Nat
  second : Nat
  microsecond : Nat
  deriving DecidableEq, Repr

/-- `True` iff `y` is a Gregorian leap year (as Python's `calendar.isleap`). -/
def isLeap (y : Nat) : Bool :=
  (y % 4 == 0 && y % 100 != 0) || y % 400 == 0

/-- Number of days in month `m` of year `y`. -/
def daysInMonth (y m : Nat) : Nat :=
  if m = 2 then (if isLeap y then 29 else 28)
  else if m = 4 ∨ m = 6 ∨ m = 9 ∨ m = 11 then 30
  else 31

/-- The range checks Python's `datetime` constructor enforces
(`MINYEAR = 1`, `MAXYEAR = 9999`, day valid for the month). -/
def validDT (y mo d h mi s us : Nat) : Bool :=
  1 ≤ y && y ≤ 9999 && 1 ≤ mo && mo ≤ 12 && 1 ≤ d && d ≤ daysInMonth y mo
    && h ≤ 23 && mi ≤ 59 && s ≤ 59 && us ≤ 999999

/-- A `DateTime` whose fields satisfy the `datetime` constructor's checks. -/
def DateTime.Valid (dt : DateTime) : Prop :=
  validDT dt.year dt.month dt.day dt.hour dt.minute dt.second dt.microsecond = true

instance (dt : DateTime) : Decidable dt.Valid := by
  unfold DateTime.Valid; infer_instance

/-- The ASCII digit character for `n % 10`. -/
def digitChar (n : Nat) : Char := Char.ofNat (48 + n % 10)

/-- Two-digit zero-padded rendering of `n` (Python `%02d` for `n < 100`). -/
def pad2 (n : Nat) : List Char := [digitChar (n / 10), digitChar n]

/-- Four-digit zero-padded rendering of `n` (Python `%04d` for `n < 10000`). -/
def pad4 (n : Nat) : List Char :=
  [digitChar (n / 1000), digitChar (n / 100), digitChar (n / 10), digitChar n]

/-- Six-digit zero-padded rendering of `n` (Python `%06d` for `n < 1000000`). -/
def pad6 (n : Nat) : List Char :=
  [digitChar (n / 100000), digitChar (n / 10000), digitChar (n / 1000),
   digitChar (n / 100), digitChar (n / 10), digitChar n]

/-- Character list of `datetime.isoformat()`:
`YYYY-MM-DDTHH:MM:SS` with `.ffffff` appended exactly when the microsecond
field is nonzero — this is what Python emits for a naive datetime. -/
def isoChars (dt : DateTime) : List Char :=
  pad4 dt.year ++ '-' :: pad2 dt.month ++ '-' :: pad2 dt.day ++
    'T' :: pad2 dt.hour ++ ':' :: pad2 dt.minute ++ ':' :: pad2 dt.second ++
    (if dt.microsecond = 0 then [] else '.' :: pad6 dt.microsecond)

/-- Model of `datetime.isoformat()` as used in `to_dict`. -/
def DateTime.isoformat (dt : DateTime) : String := ⟨isoChars dt⟩

/-- Parse a single ASCII digit. -/
def parseDigit (c : Char) : Option Nat :=
  if c.isDigit then some (c.toNat - 48) else none

/-- Parse two digits as a two-digit decimal number. -/
def parse2 (a b : Char) : Option Nat :=
  (parseDigit a).bind fun x => (parseDigit b).bind fun y => some (x * 10 + y)

/-- Parse four digits as a four-digit decimal number. -/
def parse4 (a b c d : Char) : Option Nat :=
  (parseDigit a).bind fun x => (parseDigit b).bind fun y =>
    (parseDigit c).bind fun z => (parseDigit d).bind fun w =>
      some (x * 1000 + y * 100 + z * 10 + w)

/-- Parse six digits as a six-digit decimal number. -/
def parse6 (a b c d e f : Char) : Option Nat :=
  (parseDigit a).bind fun x => (parseDigit b).bind fun y =>
    (parseDigit c).bind fun z => (parseDigit d).bind fun w =>
      (parseDigit e).bind fun v => (parseDigit f).bind fun u =>
        some (x * 100000 + y * 10000 + z * 1000 + w * 100 + v * 10 + u)

/-- Parse the optional fractional-second tail of an ISO timestamp:
empty means microsecond 0, otherwise a dot followed by six digits. -/
def parseMicro : List Char → Option Nat
  | [] => some 0
  | p :: u1 :: u2 :: u3 :: u4 :: u5 :: u6 :: [] =>
      if p = '.' then parse6 u1 u2 u3 u4 u5 u6 else none
  | _ => none

/-- Model of `datetime.fromisoformat` on the fixed-width format `isoformat`
emits: positional fields, literal separators, and the constructor's range
checks. -/
def fromisoChars (cs : List Char) : Option DateTime :=
  match cs with
  | y1 :: y2 :: y3 :: y4 :: a :: m1 :: m2 :: b :: d1 :: d2 :: t ::
      h1 :: h2 :: c :: n1 :: n2 :: e :: s1 :: s2 :: rest =>
    if a = '-' ∧ b = '-' ∧ t = 'T' ∧ c = ':' ∧ e = ':' then
      (parse4 y1 y2 y3 y4).bind fun y =>
      (parse2 m1 m2).bind fun mo =>
      (parse2 d1 d2).bind fun d =>
      (parse2 h1 h2).bind fun h =>
      (parse2 n1 n2).bind fun mi =>
      (parse2 s1 s2).bind fun s =>
      (parseMicro rest).bind fun us =>
      if validDT y mo d h mi s us then some ⟨y, mo, d, h, mi, s, us⟩ else none
    else none
  | _ => none

/-- Model of `datetime.fromisoformat` on strings. -/
def DateTime.fromisoformat (s : String) : Option DateTime := fromisoChars s.data

theorem parseDigit_digitChar {n : Nat} (h : n < 10) :
    parseDigit (digitChar n) = some n := by
  interval_cases n <;> decide

theorem digitChar_mod (n : Nat) : digitChar n = digitChar (n % 10) := by
  simp [digitChar, Nat.mod_mod_of_dvd]

theorem parse2_pad2 {n : Nat} (h : n < 100) :
    parse2 (digitChar (n / 10)) (digitChar n) = some n := by
  rw [parse2, parseDigit_digitChar (by omega : n / 10 < 10),
    digitChar_mod n, parseDigit_digitChar (by omega : n % 10 < 10)]
  simp [Option.bind]
  omega

theorem parse4_pad4 {n : Nat} (h : n < 10000) :
    parse4 (digitChar (n / 1000)) (digitChar (n / 100)) (digitChar (n / 10))
      (digitChar n) = some n := by
  rw [parse4, parseDigit_digitChar (by omega : n / 1000 < 10),
    digitChar_mod (n / 100), parseDigit_digitChar (by omega : n / 100 % 10 < 10),
    digitChar_mod (n / 10), parseDigit_digitChar (by omega : n / 10 % 10 < 10),
    digitChar_mod n, parseDigit_digitChar (by omega : n % 10 < 10)]
  simp [Option.bind]
  omega

theorem parse6_pad6 {n : Nat} (h : n < 1000000) :
    parse6 (digitChar (n / 100000)) (digitChar (n / 10000)) (digitChar (n / 1000))
      (digitChar (n / 100)) (digitChar (n / 10)) (digitChar n) = some n := by
  rw [parse6, parseDigit_digitChar (by omega : n / 100000 < 10),
    digitChar_mod (n / 10000), parseDigit_digitChar (by omega : n / 10000 % 10 < 10),
    digitChar_mod (n / 1000), parseDigit_digitChar (by omega : n / 1000 % 10 < 10),
    digitChar_mod (n / 100), parseDigit_digitChar (by omega : n / 100 % 10 < 10),
    digitChar_mod (n / 10), parseDigit_digitChar (by omega : n / 10 % 10 < 10),
    digitChar_mod n, parseDigit_digitChar (by omega : n % 10 < 10)]
  simp [Option.bind]
  omega

theorem daysInMonth_le_31 (y m : Nat) : daysInMonth y m ≤ 31 := by
  unfold daysInMonth
  split
  · split <;> omega
  · split <;> omega

theorem fromisoChars_isoChars (dt : DateTime) (hv : dt.Valid) :
    fromisoChars (isoChars dt) = some dt := by
  obtain ⟨y, mo, d, h, mi, s, us⟩ := dt
  simp only [DateTime.Valid, validDT, Bool.and_eq_true, decide_eq_true_eq] at hv
  obtain ⟨⟨⟨⟨⟨⟨⟨⟨⟨hy1, hy2⟩, hmo1⟩, hmo2⟩, hd1⟩, hd2⟩, hh⟩, hmi⟩, hs⟩, hus⟩ := hv
  have hdm := daysInMonth_le_31 y mo
  by_cases h0 : us = 0
  · subst h0
    have hva : validDT y mo d h mi s 0 = true := by
      simp only [validDT, Bool.and_eq_true, decide_eq_true_eq]
      exact ⟨⟨⟨⟨⟨⟨⟨⟨⟨hy1, hy2⟩, hmo1⟩, hmo2⟩, hd1⟩, hd2⟩, hh⟩, hmi⟩, hs⟩, by omega⟩
    simp only [isoChars, pad4, pad2, if_pos rfl, List.cons_append,
      List.nil_append, List.append_assoc]
    simp only [fromisoChars]
    simp only [and_self, and_true, true_and, if_true]
    rw [parse4_pad4 (by omega), parse2_pad2 (by omega), parse2_pad2 (by omega),
      parse2_pad2 (by omega), parse2_pad2 (by omega), parse2_pad2 (by omega)]
    simp only [Option.some_bind, parseMicro]
    simp [hva]
  · have hva : validDT y mo d h mi s us = true := by
      simp only [validDT, Bool.and_eq_true, decide_eq_true_eq]
      exact ⟨⟨⟨⟨⟨⟨⟨⟨⟨hy1, hy2⟩, hmo1⟩, hmo2⟩, hd1⟩, hd2⟩, hh⟩, hmi⟩, hs⟩, by omega⟩
    simp only [isoChars, pad4, pad2, pad6, if_neg h0, List.cons_append,
      List.nil_append, List.append_assoc]
    simp only [fromisoChars]
    simp only [and_self, and_true, true_and, if_true]
    rw [parse4_pad4 (by omega), parse2_pad2 (by omega), parse2_pad2 (by omega),
      parse2_pad2 (by omega), parse2_pad2 (by omega), parse2_pad2 (by omega)]
    simp only [Option.some_bind, parseMicro]
    simp only [and_self, and_true, true_and, if_true]
    rw [parse6_pad6 (by omega)]
    simp [hva]

/-- Serialize-then-parse on timestamps is the identity for any valid instant. -/
theorem fromisoformat_isoformat (dt : DateTime) (hv : dt.Valid) :
    DateTime.fromisoformat dt.isoformat = some dt :=
  fromisoChars_isoChars dt hv

/-- Embedding of `MetricData` (the spec's `MetricSample`): a single metric
measurement with its metadata (`base.py`, lines 11-29). -/
structure MetricData where
  name : String
  value : ℚ
  unit : String
  timestamp : DateTime
  deriving DecidableEq, Repr

/-- Python truthiness of a `datetime.datetime`: such objects define no
`__bool__`/`__len__`, so they are always truthy. -/
def datetimeTruthy (_dt : DateTime) : Bool := true

/-- Embedding of `MetricData.__init__`.  The Python body is
`self.name = name; self.value = value; self.unit = unit;
self.timestamp = timestamp or datetime.now()`; `datetime.now()` is the
injected `now` argument, and `timestamp or now` keeps a supplied (truthy)
datetime and falls back to `now` when the argument is `None`.  The
constructor performs no checks and cannot raise, so it always returns `ok`;
the `Except` result type records that a Python constructor could in
principle raise. -/
def MetricData.init (name : String) (value : ℚ) (unit : String)
    (timestamp : Option DateTime) (now : DateTime) : Except PyErr MetricData :=
  .ok { name := name, value := value, unit := unit,
        timestamp :=
          match timestamp with
          | some t => if datetimeTruthy t then t else now
          | none => now }

/-- Embedding of `MetricData.to_dict` (`base.py`, lines 22-29): the returned
dictionary, as an association list in the key order of the Python literal. -/
def MetricData.to_dict (m : MetricData) : List (String × PyVal) :=
  [("name", .str m.name), ("value", .num m.value), ("unit", .str m.unit),
   ("timestamp", .str m.timestamp.isoformat)]

/-- State-passing embedding of the method call `m.to_dict()`: the method body
is a single `return` of a dict literal and assigns no attribute, so `self` is
returned unchanged next to the result. -/
def MetricData.to_dictS (m : MetricData) : MetricData × List (String × PyVal) :=
  (m, m.to_dict)

/-- Embedding of `CloudResource` (`base.py`, lines 31-54). -/
structure CloudResource where
  resource_id : String
  resource_type : String
  region : String
  metadata : List (String × PyVal)
  metrics : List (String × PyVal)
  status : String
  deriving DecidableEq, Repr

/-- Embedding of `CloudResource.__init__` (`base.py`, lines 37-43): stores the
three arguments and initializes `metadata = {}`, `metrics = {}`,
`status = "unknown"`. -/
def CloudResource.init (resource_id resource_type region : String) :
    CloudResource :=
  { resource_id := resource_id, resource_type := resource_type,
    region := region, metadata := [], metrics := [], status := "unknown" }

/-- Embedding of `CloudResource.collect_metrics` (`base.py`, lines 45-50):
the base-class body unconditionally raises `NotImplementedError`. -/
def CloudResource.collect_metrics (_r : CloudResource) :
    Except PyErr (List (String × PyVal)) :=
  .error (.notImplementedError
    "Each resource type must implement collect_metrics()")

/-- State-passing embedding of `CloudResource.get_health_status`
(`base.py`, lines 52-54): the body is `return self.status` and assigns no
attribute, so `self` is returned unchanged next to the result. -/
def CloudResource.get_health_status (r : CloudResource) :
    CloudResource × String :=
  (r, r.status)

/-- Embedding of `Alert` (`base.py`, lines 56-81). -/
structure Alert where
  resource_id : String
  metric_name : String
  threshold : ℚ
  current_value : ℚ
  severity : String
  timestamp : DateTime
  resolved : Bool
  deriving DecidableEq, Repr

/-- Embedding of `Alert.__init__` (`base.py`, lines 61-69): stores the five
arguments, sets `timestamp = datetime.now()` (the injected `now`) and
`resolved = False`. -/
def Alert.init (resource_id metric_name : String)
    (threshold current_value : ℚ) (severity : String) (now : DateTime) :
    Alert :=
  { resource_id := resource_id, metric_name := metric_name,
    threshold := threshold, current_value := current_value,
    severity := severity, timestamp := now, resolved := false }

/-- Embedding of `Alert.to_dict` (`base.py`, lines 71-81). -/
def Alert.to_dict (a : Alert) : List (String × PyVal) :=
  [("resource_id", .str a.resource_id), ("metric_name", .str a.metric_name),
   ("threshold", .num a.threshold), ("current_value", .num a.current_value),
   ("severity", .str a.severity), ("timestamp", .str a.timestamp.isoformat),
   ("resolved", .bool a.resolved)]

/-- Modelled from the spec: `ThresholdRule` (spec §3/§4.3) is absent from
`src/`; it is `{metric_name, comparison ∈ {gt, lt, gte, lte}, threshold,
severity}`, stateless. -/
inductive Comparison where
  | gt | lt | gte | lte
  deriving DecidableEq, Repr

/-- Modelled from the spec: the comparison operator applied to
`(sample.value, rule.threshold)`; "exact equality on gte/lte treated as
satisfying the bound" (spec §4.3). -/
def Comparison.holds : Comparison → ℚ → ℚ → Bool
  | .gt, v, t => v > t
  | .lt, v, t => v < t
  | .gte, v, t => v ≥ t
  | .lte, v, t => v ≤ t

/-- Modelled from the spec: a `ThresholdRule` record (spec §3). -/
structure ThresholdRule where
  metric_name : String
  comparison : Comparison
  threshold : ℚ
  severity : String
  deriving DecidableEq, Repr

/-- Total key for ordering datetimes chronologically (fields are
lexicographic most-significant first, each bounded for valid datetimes). -/
def dtKey (dt : DateTime) : Nat :=
  ((((dt.year * 13 + dt.month) * 32 + dt.day) * 24 + dt.hour) * 60 + dt.minute)
      * 60 * 1000000 + dt.second * 1000000 + dt.microsecond

/-- Modelled from the spec: "find the most recent sample matching
metric_name" among this cycle's samples (spec §4.3); `none` when no sample
matches. -/
def mostRecent (samples : List MetricData) (metric_name : String) :
    Option MetricData :=
  samples.foldl
    (fun acc sm =>
      if sm.name = metric_name then
        match acc with
        | none => some sm
        | some prev =>
            if dtKey prev.timestamp < dtKey sm.timestamp then some sm
            else some prev
      else acc)
    none

/-- The dedup key of an alert: `(resource_id, metric_name)` (spec §3). -/
def alertKey (a : Alert) : String × String := (a.resource_id, a.metric_name)

/-- Find the open alert for a key in the engine's open-alert state. -/
def findOpen (opens : List Alert) (rid metric_name : String) : Option Alert :=
  opens.find? fun a =>
    a.resource_id = rid ∧ a.metric_name = metric_name

/-- Modelled from the spec: the state transition of §4.3 for one rule,
threading (emitted events, open-alert state). -/
def evalRule (rid : String) (samples : List MetricData) (now : DateTime)
    (acc : List Alert × List Alert) (rule : ThresholdRule) :
    List Alert × List Alert :=
  match mostRecent samples rule.metric_name with
  | none => acc
  | some sample =>
    let pred := rule.comparison.holds sample.value rule.threshold
    match findOpen acc.2 rid rule.metric_name with
    | none =>
        if pred then
          let a := Alert.init rid rule.metric_name rule.threshold
            sample.value rule.severity now
          (acc.1 ++ [a], acc.2 ++ [a])
        else acc
    | some a =>
        if pred then acc
        else
          let r := { a with resolved := true, timestamp := now }
          (acc.1 ++ [r],
           acc.2.filter fun b =>
             ¬(b.resource_id = rid ∧ b.metric_name = rule.metric_name))

/-- Modelled from the spec: `AlertEngine.evaluate(resource_id, samples,
rules)` (spec §4.3) — rules are processed in order against the open-alert
state, returning the emitted alert events and the new state. -/
def AlertEngine.evaluate (rid : String) (samples : List MetricData)
    (rules : List ThresholdRule) (now : DateTime) (opens : List Alert) :
    List Alert × List Alert :=
  rules.foldl (evalRule rid samples now) ([], opens)

/-- Modelled from the spec: the engine's open-alert state is "initialized
empty at engine construction" (spec §4.3). -/
def AlertEngine.initState : List Alert := []

/-- One recorded `evaluate()` call: its arguments and the call's clock. -/
structure EvalCall where
  rid : String
  samples : List MetricData
  rules : List ThresholdRule
  now : DateTime

/-- The open-alert state after a sequence of `evaluate()` calls starting
from the engine's initial (empty) state. -/
def AlertEngine.runCalls (calls : List EvalCall) : List Alert :=
  calls.foldl
    (fun opens call =>
      (AlertEngine.evaluate call.rid call.samples call.rules call.now opens).2)
    AlertEngine.initState

/-- The invariant of spec §3: at most one open alert per
`(resource_id, metric_name)` key, and every alert held open is unresolved. -/
def OpenAlertInvariant (opens : List Alert) : Prop :=
  (opens.map alertKey).Nodup ∧ ∀ a ∈ opens, a.resolved = false

theorem findOpen_eq_none {opens : List Alert} {rid mn : String}
    (hf : findOpen opens rid mn = none) :
    ∀ b ∈ opens, ¬(b.resource_id = rid ∧ b.metric_name = mn) := by
  intro b hb
  have := List.find?_eq_none.mp hf b hb
  simpa using this

theorem evalRule_invariant (rid : String) (samples : List MetricData)
    (now : DateTime) (acc : List Alert × List Alert) (rule : ThresholdRule)
    (h : OpenAlertInvariant acc.2) :
    OpenAlertInvariant (evalRule rid samples now acc rule).2 := by
  obtain ⟨evs, opens⟩ := acc
  simp only [OpenAlertInvariant] at h ⊢
  unfold evalRule
  cases hmr : mostRecent samples rule.metric_name with
  | none => exact h
  | some sample =>
    simp only
    cases hf : findOpen opens rid rule.metric_name with
    | none =>
      by_cases hp : rule.comparison.holds sample.value rule.threshold = true
      · simp only [hp, if_true]
        have hnone := findOpen_eq_none hf
        constructor
        · rw [List.map_append]
          rw [List.nodup_append]
          refine ⟨h.1, List.nodup_singleton _, ?_⟩
          intro k hk hk2
          simp only [List.map_cons, List.map_nil, List.mem_singleton] at hk2
          subst hk2
          obtain ⟨b, hb, hkb⟩ := List.mem_map.mp hk
          exact hnone b hb (by
            have : alertKey b = (rid, rule.metric_name) := by
              simpa [Alert.init, alertKey] using hkb
            exact ⟨congrArg Prod.fst this, congrArg Prod.snd this⟩)
        · intro a ha
          rcases List.mem_append.mp ha with hmem | hmem
          · exact h.2 a hmem
          · simp only [List.mem_singleton] at hmem
            subst hmem
            rfl
      · simp only [hp, if_false]
        exact h
    | some a =>
      by_cases hp : rule.comparison.holds sample.value rule.threshold = true
      · simp only [hp, if_true]
        exact h
      · simp only [hp, if_false]
        constructor
        · exact List.Nodup.sublist
            (List.Sublist.map alertKey (List.filter_sublist opens)) h.1
        · intro b hb
          exact h.2 b (List.mem_of_mem_filter hb)

theorem evaluate_invariant (rid : String) (samples : List MetricData)
    (rules : List ThresholdRule) (now : DateTime) (opens : List Alert)
    (h : OpenAlertInvariant opens) :
    OpenAlertInvariant (AlertEngine.evaluate rid samples rules now opens).2 := by
  unfold AlertEngine.evaluate
  suffices hgen : ∀ (rs : List ThresholdRule) (acc : List Alert × List Alert),
      OpenAlertInvariant acc.2 →
      OpenAlertInvariant (rs.foldl (evalRule rid samples now) acc).2 by
    exact hgen rules ([], opens) h
  intro rs
  induction rs with
  | nil => intro acc hacc; exact hacc
  | cons r rs ih =>
      intro acc hacc
      exact ih _ (evalRule_invariant rid samples now acc r hacc)

/-- Claim C1, counterexample: `MetricData.__init__` performs no validation —
constructing a sample with an empty name and empty unit succeeds and
produces a sample, contradicting "for every such invalid input no sample is
produced". -/
theorem metricData_init_accepts_empty_name :
    MetricData.init "" 0 "" none ⟨2020, 1, 1, 0, 0, 0, 0⟩ =
      Except.ok ⟨"", 0, "", ⟨2020, 1, 1, 0, 0, 0, 0⟩⟩ := rfl

/-- Claim C1, amended: constructing a MetricSample never fails — the
constructor performs no validation of name, unit or value; a sample storing
the given fields unchanged is produced for every input, including an empty
name or unit. -/
theorem metricData_init_never_fails (name : String) (value : ℚ)
    (unit : String) (ts : Option DateTime) (now : DateTime) :
    ∃ m, MetricData.init name value unit ts now = Except.ok m ∧
      m.name = name ∧ m.value = value ∧ m.unit = unit := by
  cases ts with
  | none => exact ⟨_, rfl, rfl, rfl, rfl⟩
  | some t => exact ⟨_, rfl, rfl, rfl, rfl⟩

/-- Claim C2: `MetricData.to_dict` produces a mapping with keys exactly
{name, value, unit, timestamp}, timestamp an ISO-8601 string; `Alert.to_dict`
produces keys exactly {resource_id, metric_name, threshold, current_value,
severity, timestamp, resolved}, timestamp an ISO-8601 string and resolved a
bool. -/
theorem to_dict_keys_exact (m : MetricData) (a : Alert) :
    m.to_dict.map Prod.fst = ["name", "value", "unit", "timestamp"] ∧
    m.to_dict.lookup "timestamp" = some (.str m.timestamp.isoformat) ∧
    a.to_dict.map Prod.fst =
      ["resource_id", "metric_name", "threshold", "current_value",
       "severity", "timestamp", "resolved"] ∧
    a.to_dict.lookup "timestamp" = some (.str a.timestamp.isoformat) ∧
    a.to_dict.lookup "resolved" = some (.bool a.resolved) := by
  refine ⟨rfl, ?_, rfl, ?_, ?_⟩ <;> rfl

/-- Claim C3: for every MetricSample with a valid timestamp, the timestamp
string in the serialized mapping parses back to exactly the original
instant (serialize then parse is the identity on the timestamp). -/
theorem metricData_timestamp_roundtrip (m : MetricData)
    (hv : m.timestamp.Valid) :
    m.to_dict.lookup "timestamp" = some (.str m.timestamp.isoformat) ∧
    DateTime.fromisoformat m.timestamp.isoformat = some m.timestamp :=
  ⟨rfl, fromisoformat_isoformat m.timestamp hv⟩

/-- Claim C3, witness: the round-trip evaluated at the concrete sample
`("cpu", 95, "%")` taken at 2026-10-12T08:30:05.000123. -/
theorem metricData_timestamp_roundtrip_witness :
    DateTime.Valid ⟨2026, 10, 12, 8, 30, 5, 123⟩ ∧
    DateTime.fromisoformat
        (DateTime.isoformat ⟨2026, 10, 12, 8, 30, 5, 123⟩) =
      some ⟨2026, 10, 12, 8, 30, 5, 123⟩ :=
  ⟨by decide,
   (metricData_timestamp_roundtrip
     ⟨"cpu", 95, "%", ⟨2026, 10, 12, 8, 30, 5, 123⟩⟩ (by decide)).2⟩

/-- Claim C4: at any time, for every (resource_id, metric_name) pair there
is at most one open (unresolved) alert — the invariant holds after every
sequence of `AlertEngine.evaluate` calls starting from the empty open-alert
state. -/
theorem alertEngine_open_alert_invariant (calls : List EvalCall) :
    OpenAlertInvariant (AlertEngine.runCalls calls) := by
  unfold AlertEngine.runCalls
  suffices hgen : ∀ (cs : List EvalCall) (opens : List Alert),
      OpenAlertInvariant opens →
      OpenAlertInvariant (cs.foldl
        (fun opens call =>
          (AlertEngine.evaluate call.rid call.samples call.rules call.now
            opens).2)
        opens) by
    refine hgen calls AlertEngine.initState ⟨List.nodup_nil, ?_⟩
    intro a ha
    cases ha
  intro cs
  induction cs with
  | nil => intro opens h; exact h
  | cons c cs ih =>
      intro opens h
      exact ih _ (evaluate_invariant c.rid c.samples c.rules c.now opens h)

/-- Claim C5: every call to the base class's `collect_metrics` raises
`NotImplementedError`; it never returns a value. -/
theorem collect_metrics_always_raises (r : CloudResource) :
    r.collect_metrics =
      Except.error (.notImplementedError
        "Each resource type must implement collect_metrics()") ∧
    ∀ d, r.collect_metrics ≠ Except.ok d := by
  refine ⟨rfl, ?_⟩
  intro d hd
  cases hd

/-- Claim C6: a MetricSample constructed without a supplied timestamp gets
the construction-time clock as its timestamp; a supplied timestamp is
stored unchanged. -/
theorem metricData_timestamp_default_and_supplied (name : String)
    (value : ℚ) (unit : String) (t now : DateTime) :
    MetricData.init name value unit none now =
      Except.ok ⟨name, value, unit, now⟩ ∧
    MetricData.init name value unit (some t) now =
      Except.ok ⟨name, value, unit, t⟩ :=
  ⟨rfl, rfl⟩

/-- Claim C7: a MetricSample is never mutated — the only exposed operation,
`to_dict`, leaves all four fields name, value, unit, timestamp unchanged
(state-passing embedding returns `self` as it was). -/
theorem metricData_immutable_under_to_dict (m : MetricData) :
    m.to_dictS.1.name = m.name ∧ m.to_dictS.1.value = m.value ∧
    m.to_dictS.1.unit = m.unit ∧ m.to_dictS.1.timestamp = m.timestamp ∧
    m.to_dictS.2 = m.to_dict :=
  ⟨rfl, rfl, rfl, rfl, rfl⟩

/-- Claim C8: `get_health_status` returns exactly the currently stored
status value and modifies no state. -/
theorem get_health_status_returns_status (r : CloudResource) :
    r.get_health_status.2 = r.status ∧ r.get_health_status.1 = r :=
  ⟨rfl, rfl⟩

/-- Claim C9: every freshly constructed CloudResource has status "unknown"
and empty metadata and metrics mappings, for all constructor arguments. -/
theorem cloudResource_init_defaults (resource_id resource_type region :
    String) :
    (CloudResource.init resource_id resource_type region).status = "unknown" ∧
    (CloudResource.init resource_id resource_type region).metadata = [] ∧
    (CloudResource.init resource_id resource_type region).metrics = [] :=
  ⟨rfl, rfl, rfl⟩

/-- Claim C10: every freshly constructed Alert is open — `resolved` is
false and `timestamp` equals the creation-time clock, for all constructor
arguments. -/
theorem alert_init_open (resource_id metric_name : String)
    (threshold current_value : ℚ) (severity : String) (now : DateTime) :
    (Alert.init resource_id metric_name threshold current_value severity
      now).resolved = false ∧
    (Alert.init resource_id metric_name threshold current_value severity
      now).timestamp = now :=
  ⟨rfl, rfl⟩
